import Mathlib

/-!
Shallow embedding of `src/expensive_services_detail/breakdown_of_expensive_service.py`.

The module defines two Python functions:

* `breakdown_service_cost(service, account_id, start_date, end_date)` issues one
  `ce_client.get_cost_and_usage` query inside a `try`, returns
  `response['ResultsByTime']` on success, and on any exception logs
  `"Error fetching cost breakdown for {service}: {str(e)}"` and returns `None`.
* `lambda_handler(event, context)` reads `event['services']`, parses it with
  `json.loads`, reads `start_date`, `end_date`, `account_id`, loops over the
  parsed entries calling `breakdown_service_cost` on each `entry['Service']`,
  stores the results in a dict (last write wins), logs the dict at info level,
  and returns `{'statusCode': 200, 'body': json.dumps(cost_breakdown)}`.

The external Cost Explorer client and `json.loads` are modelled as explicit
oracle parameters; the Cost Explorer oracle additionally receives the index of
the call so that two calls with the same request may answer differently (the
external service is stateful).  Every embedded function returns, besides its
Python return value, the list of Cost Explorer requests it issued and the list
of log records it emitted, in order.
-/

/-- Values produced by `json.loads` / consumed by `json.dumps`:
`None`, `bool`, `int`, `str`, `list`, `dict` (string keys, insertion order). -/
inductive Json where
  | null : Json
  | bool (b : Bool) : Json
  | num (n : Int) : Json
  | str (s : String) : Json
  | arr (xs : List Json) : Json
  | obj (kvs : List (String × Json)) : Json

mutual
/-- Decidable structural equality for `Json` (Python `==` on decoded values). -/
def Json.decEq : (a b : Json) → Decidable (a = b)
  | .null, .null => isTrue rfl
  | .null, .bool _ => isFalse nofun
  | .null, .num _ => isFalse nofun
  | .null, .str _ => isFalse nofun
  | .null, .arr _ => isFalse nofun
  | .null, .obj _ => isFalse nofun
  | .bool _, .null => isFalse nofun
  | .bool a, .bool b =>
    match Bool.decEq a b with
    | isTrue h => isTrue (h ▸ rfl)
    | isFalse h => isFalse (fun hh => h (Json.bool.inj hh))
  | .bool _, .num _ => isFalse nofun
  | .bool _, .str _ => isFalse nofun
  | .bool _, .arr _ => isFalse nofun
  | .bool _, .obj _ => isFalse nofun
  | .num _, .null => isFalse nofun
  | .num _, .bool _ => isFalse nofun
  | .num a, .num b =>
    match Int.decEq a b with
    | isTrue h => isTrue (h ▸ rfl)
    | isFalse h => isFalse (fun hh => h (Json.num.inj hh))
  | .num _, .str _ => isFalse nofun
  | .num _, .arr _ => isFalse nofun
  | .num _, .obj _ => isFalse nofun
  | .str _, .null => isFalse nofun
  | .str _, .bool _ => isFalse nofun
  | .str _, .num _ => isFalse nofun
  | .str a, .str b =>
    match String.decEq a b with
    | isTrue h => isTrue (h ▸ rfl)
    | isFalse h => isFalse (fun hh => h (Json.str.inj hh))
  | .str _, .arr _ => isFalse nofun
  | .str _, .obj _ => isFalse nofun
  | .arr _, .null => isFalse nofun
  | .arr _, .bool _ => isFalse nofun
  | .arr _, .num _ => isFalse nofun
  | .arr _, .str _ => isFalse nofun
  | .arr xs, .arr ys =>
    match Json.decEqList xs ys with
    | isTrue h => isTrue (h ▸ rfl)
    | isFalse h => isFalse (fun hh => h (Json.arr.inj hh))
  | .arr _, .obj _ => isFalse nofun
  | .obj _, .null => isFalse nofun
  | .obj _, .bool _ => isFalse nofun
  | .obj _, .num _ => isFalse nofun
  | .obj _, .str _ => isFalse nofun
  | .obj _, .arr _ => isFalse nofun
  | .obj xs, .obj ys =>
    match Json.decEqKVs xs ys with
    | isTrue h => isTrue (h ▸ rfl)
    | isFalse h => isFalse (fun hh => h (Json.obj.inj hh))

def Json.decEqList : (as bs : List Json) → Decidable (as = bs)
  | [], [] => isTrue rfl
  | [], _ :: _ => isFalse nofun
  | _ :: _, [] => isFalse nofun
  | a :: as, b :: bs =>
    match Json.decEq a b with
    | isFalse h => isFalse (fun hh => h (List.head_eq_of_cons_eq hh))
    | isTrue h1 =>
      match Json.decEqList as bs with
      | isTrue h2 => isTrue (by rw [h1, h2])
      | isFalse h => isFalse (fun hh => h (List.tail_eq_of_cons_eq hh))

def Json.decEqKVs : (as bs : List (String × Json)) → Decidable (as = bs)
  | [], [] => isTrue rfl
  | [], _ :: _ => isFalse nofun
  | _ :: _, [] => isFalse nofun
  | (k, v) :: as, (l, w) :: bs =>
    match String.decEq k l with
    | isFalse h => isFalse (fun hh => h (congrArg Prod.fst (List.head_eq_of_cons_eq hh)))
    | isTrue h0 =>
      match Json.decEq v w with
      | isFalse h => isFalse (fun hh => h (congrArg Prod.snd (List.head_eq_of_cons_eq hh)))
      | isTrue h1 =>
        match Json.decEqKVs as bs with
        | isTrue h2 => isTrue (by rw [h0, h1, h2])
        | isFalse h => isFalse (fun hh => h (List.tail_eq_of_cons_eq hh))
end

instance : DecidableEq Json := Json.decEq

/-- The Python exceptions this module can raise (outside the `try` block of
`breakdown_service_cost`, which swallows everything). -/
inductive PyErr where
  | keyError (k : String) : PyErr
  | typeError (msg : String) : PyErr
  | jsonDecodeError (msg : String) : PyErr
deriving DecidableEq

/-- `str(e)` for a Python exception: `str(KeyError(k))` is the repr of `k`. -/
def pyErrStr : PyErr → String
  | .keyError k => "\x27" ++ k ++ "\x27"
  | .typeError m => m
  | .jsonDecodeError m => m

/-- Minimal JSON string escaping used by `json.dumps`. -/
def jsonEscapeChar (c : Char) : String :=
  if c = '\\' then "\\\\"
  else if c = '"' then "\\\""
  else if c = '\n' then "\\n"
  else if c = '\t' then "\\t"
  else if c = '\r' then "\\r"
  else String.singleton c

def jsonEscape (s : String) : String :=
  String.join (s.toList.map jsonEscapeChar)

mutual
/-- Model of Python `json.dumps` on a decoded JSON value (default separators). -/
def Json.dumps : Json → String
  | .null => "null"
  | .bool b => if b then "true" else "false"
  | .num n => toString n
  | .str s => "\"" ++ jsonEscape s ++ "\""
  | .arr xs => "[" ++ Json.dumpsList xs ++ "]"
  | .obj kvs => "\x7b" ++ Json.dumpsKVs kvs ++ "\x7d"

def Json.dumpsList : List Json → String
  | [] => ""
  | [x] => Json.dumps x
  | x :: y :: xs => Json.dumps x ++ ", " ++ Json.dumpsList (y :: xs)

def Json.dumpsKVs : List (String × Json) → String
  | [] => ""
  | [(k, v)] => "\"" ++ jsonEscape k ++ "\": " ++ Json.dumps v
  | (k, v) :: p :: xs =>
      "\"" ++ jsonEscape k ++ "\": " ++ Json.dumps v ++ ", " ++ Json.dumpsKVs (p :: xs)
end

mutual
/-- Python `str()` of a decoded JSON value (used by f-strings and `logging`). -/
def pyStr : Json → String
  | .null => "None"
  | .bool b => if b then "True" else "False"
  | .num n => toString n
  | .str s => s
  | .arr xs => "[" ++ pyReprList xs ++ "]"
  | .obj kvs => "\x7b" ++ pyReprKVs kvs ++ "\x7d"

/-- Python `repr()` of a decoded JSON value. -/
def pyRepr : Json → String
  | .null => "None"
  | .bool b => if b then "True" else "False"
  | .num n => toString n
  | .str s => "\x27" ++ s ++ "\x27"
  | .arr xs => "[" ++ pyReprList xs ++ "]"
  | .obj kvs => "\x7b" ++ pyReprKVs kvs ++ "\x7d"

def pyReprList : List Json → String
  | [] => ""
  | [x] => pyRepr x
  | x :: y :: xs => pyRepr x ++ ", " ++ pyReprList (y :: xs)

def pyReprKVs : List (String × Json) → String
  | [] => ""
  | [(k, v)] => "\x27" ++ k ++ "\x27: " ++ pyRepr v
  | (k, v) :: p :: xs =>
      "\x27" ++ k ++ "\x27: " ++ pyRepr v ++ ", " ++ pyReprKVs (p :: xs)
end

/-- The invocation event: a Python dict with string keys (modelled as an
association list with the dict lookup semantics of unique keys). -/
def Event := List (String × Json)

/-- `event[k]` on a string-keyed dict: the value, or `KeyError`. -/
def pyGetKeyStr (d : List (String × Json)) (k : String) : Except PyErr Json :=
  match d with
  | [] => .error (.keyError k)
  | (k', v) :: rest => if k' = k then .ok v else pyGetKeyStr rest k

/-- `x[k]` for a string subscript on a decoded JSON value: dict lookup raises
`KeyError` when the key is absent; any non-dict raises `TypeError`. -/
def jsonGetItem (x : Json) (k : String) : Except PyErr Json :=
  match x with
  | .obj kvs => pyGetKeyStr kvs k
  | .arr _ => .error (.typeError "list indices must be integers or slices, not str")
  | _ => .error (.typeError "value is not subscriptable")

/-- `for x in v`: a decoded JSON list iterates its elements, a dict its keys,
a string its one-character substrings; the scalars raise `TypeError`. -/
def pyIter (v : Json) : Except PyErr (List Json) :=
  match v with
  | .arr xs => .ok xs
  | .obj kvs => .ok (kvs.map (fun kv => Json.str kv.1))
  | .str s => .ok (s.toList.map (fun c => Json.str (String.singleton c)))
  | _ => .error (.typeError "object is not iterable")

/-- Python values usable as dict keys; decoded-JSON lists and dicts are not. -/
def pyHashable (v : Json) : Bool :=
  match v with
  | .arr _ => false
  | .obj _ => false
  | _ => true

/-- `d[k] = v` on the `cost_breakdown` dict (keys may be any hashable value,
values are `ResultsByTime` lists or `None`): an existing key keeps its
position and gets the new value, a new key is appended. -/
def pyDictSet (k : Json) (v : Option Json) :
    List (Json × Option Json) → List (Json × Option Json)
  | [] => [(k, v)]
  | (k', v') :: rest => if k' = k then (k', v) :: rest else (k', v') :: pyDictSet k v rest

/-- Lookup in the `cost_breakdown` dict. -/
def pyDictGet (d : List (Json × Option Json)) (k : Json) : Option (Option Json) :=
  match d with
  | [] => none
  | (k', v') :: rest => if k' = k then some v' else pyDictGet rest k

/-- `json.dumps` on the `cost_breakdown` dict: hashable non-string keys are
coerced to their JSON scalar spelling, `None` values render as `null`. -/
def pyDumpKey (k : Json) : String :=
  match k with
  | .str s => "\"" ++ jsonEscape s ++ "\""
  | .num n => "\"" ++ toString n ++ "\""
  | .bool b => if b then "\"true\"" else "\"false\""
  | _ => "\"null\""

def pyDumpVal (v : Option Json) : String :=
  match v with
  | none => "null"
  | some j => Json.dumps j

def pyDumpsDictEntries : List (Json × Option Json) → String
  | [] => ""
  | [(k, v)] => pyDumpKey k ++ ": " ++ pyDumpVal v
  | (k, v) :: p :: rest => pyDumpKey k ++ ": " ++ pyDumpVal v ++ ", " ++ pyDumpsDictEntries (p :: rest)

def pyDumpsDict (d : List (Json × Option Json)) : String :=
  "\x7b" ++ pyDumpsDictEntries d ++ "\x7d"

/-- `str()` of the `cost_breakdown` dict, for the `logging.info` call. -/
def pyStrDictEntries : List (Json × Option Json) → String
  | [] => ""
  | [(k, v)] => pyRepr k ++ ": " ++ (match v with | none => "None" | some j => pyRepr j)
  | (k, v) :: p :: rest =>
      pyRepr k ++ ": " ++ (match v with | none => "None" | some j => pyRepr j)
        ++ ", " ++ pyStrDictEntries (p :: rest)

def pyStrDict (d : List (Json × Option Json)) : String :=
  "\x7b" ++ pyStrDictEntries d ++ "\x7d"

/-- A record emitted through the `logging` module. -/
inductive LogLevel where
  | error : LogLevel
  | info : LogLevel
deriving DecidableEq

structure LogEntry where
  level : LogLevel
  msg : String
deriving DecidableEq

/-- The keyword arguments of the single `ce_client.get_cost_and_usage` call,
kept in the exact shape the source builds them. -/
structure CEReq where
  timePeriod : Json
  granularity : String
  metrics : List String
  groupBy : Json
  filter : Json
deriving DecidableEq

/-- `TimePeriod=..., Granularity=..., Metrics=..., GroupBy=..., Filter=...`
exactly as written at lines 37-48 of the source. -/
def mkCEReq (start_date end_date service account_id : Json) : CEReq :=
  { timePeriod := .obj [("Start", start_date), ("End", end_date)]
    granularity := "DAILY"
    metrics := ["UnblendedCost"]
    groupBy := .arr [.obj [("Type", .str "DIMENSION"), ("Key", .str "USAGE_TYPE")]]
    filter := .obj [("And", .arr
      [ .obj [("Dimensions", .obj [("Key", .str "SERVICE"), ("Values", .arr [service])])]
      , .obj [("Dimensions", .obj [("Key", .str "LINKED_ACCOUNT"), ("Values", .arr [account_id])])]
      ])] }

/-- The external Cost Explorer service: given the index of the call within the
invocation and the request, it either answers with a response value or fails
with the `str()` of the raised exception.  Indexing by call number lets two
calls with equal requests answer differently, as a stateful remote API may. -/
def CEOracle := Nat → CEReq → Except String Json

/-- The error record written by `logging.error(f"Error fetching cost breakdown
for {service}: {str(e)}")`. -/
def breakdownErrLog (service : Json) (e : String) : LogEntry :=
  { level := .error, msg := "Error fetching cost breakdown for " ++ pyStr service ++ ": " ++ e }

/-- `breakdown_service_cost(service, account_id, start_date, end_date)`:
one `get_cost_and_usage` call inside `try`; on success return
`response['ResultsByTime']`; on any exception (a failing call, or a response
without a `ResultsByTime` key) log the error and return `None`.
Returns (requests issued, log records, Python return value). -/
def breakdown_service_cost (ce : CEOracle) (idx : Nat)
    (service account_id start_date end_date : Json) :
    List CEReq × List LogEntry × Option Json :=
  let req := mkCEReq start_date end_date service account_id
  match ce idx req with
  | .error e => ([req], [breakdownErrLog service e], none)
  | .ok response =>
    match jsonGetItem response "ResultsByTime" with
    | .error e => ([req], [breakdownErrLog service (pyErrStr e)], none)
    | .ok rbt => ([req], [], some rbt)

/-- The `for service_data in services:` loop of `lambda_handler`: extract
`service_data['Service']`, call `breakdown_service_cost`, store the result
under the service name.  `idx` counts the external calls made so far; `acc` is
the `cost_breakdown` dict built so far.  An uncaught exception (missing
`Service` key, non-dict entry, unhashable service name) aborts the loop. -/
def services_loop (ce : CEOracle) (account_id start_date end_date : Json) :
    List Json → Nat → List (Json × Option Json) →
    List CEReq × List LogEntry × Except PyErr (List (Json × Option Json))
  | [], _, acc => ([], [], .ok acc)
  | service_data :: rest, idx, acc =>
    match jsonGetItem service_data "Service" with
    | .error e => ([], [], .error e)
    | .ok service_name =>
      let r := breakdown_service_cost ce idx service_name account_id start_date end_date
      if pyHashable service_name then
        let t := services_loop ce account_id start_date end_date rest (idx + 1)
          (pyDictSet service_name r.2.2 acc)
        (r.1 ++ t.1, r.2.1 ++ t.2.1, t.2.2)
      else
        (r.1, r.2.1, .error (.typeError "unhashable type"))

/-- The value `lambda_handler` returns on the normal path. -/
structure LambdaResponse where
  statusCode : Nat
  body : String
deriving DecidableEq

/-- `lambda_handler(event, context)`: read and `json.loads`-parse
`event['services']`, read `start_date`, `end_date`, `account_id`, run the
loop, log the report at info level, return
`{'statusCode': 200, 'body': json.dumps(cost_breakdown)}`.  `jsonLoads`
models the standard library parser; `context` is unused by the source.
Returns (requests issued, log records, normal return or uncaught exception). -/
def lambda_handler (ce : CEOracle) (jsonLoads : String → Except PyErr Json)
    (event : List (String × Json)) :
    List CEReq × List LogEntry × Except PyErr LambdaResponse :=
  match pyGetKeyStr event "services" with
  | .error e => ([], [], .error e)
  | .ok servicesRaw =>
    match servicesRaw with
    | .str servicesText =>
      match jsonLoads servicesText with
      | .error e => ([], [], .error e)
      | .ok services =>
        match pyGetKeyStr event "start_date" with
        | .error e => ([], [], .error e)
        | .ok start_date =>
          match pyGetKeyStr event "end_date" with
          | .error e => ([], [], .error e)
          | .ok end_date =>
            match pyGetKeyStr event "account_id" with
            | .error e => ([], [], .error e)
            | .ok account_id =>
              match pyIter services with
              | .error e => ([], [], .error e)
              | .ok entries =>
                let t := services_loop ce account_id start_date end_date entries 0 []
                match t.2.2 with
                | .error e => (t.1, t.2.1, .error e)
                | .ok cost_breakdown =>
                  (t.1, t.2.1 ++ [{ level := .info, msg := pyStrDict cost_breakdown }],
                   .ok { statusCode := 200, body := pyDumpsDict cost_breakdown })
    | _ => ([], [], .error (.typeError "the JSON object must be str, bytes or bytearray"))

/-! Derived notions used to state properties of the loop. -/

/-- The `Service` value of a parsed entry, when extracting it would not raise. -/
def entryService (e : Json) : Option Json :=
  match jsonGetItem e "Service" with
  | .ok v => some v
  | .error _ => none

/-- The service name the loop uses for an entry (meaningful on good entries). -/
def svcOf (e : Json) : Json := (entryService e).getD Json.null

/-- An entry the loop can process without raising: `entry['Service']`
succeeds and the resulting name can be used as a dict key. -/
def goodEntry (e : Json) : Bool :=
  match jsonGetItem e "Service" with
  | .ok v => pyHashable v
  | .error _ => false

/-- The (service name, `breakdown_service_cost` result) pair of each loop
iteration, in order; the entry at position `i` (counting from `idx`) records
the result of the `i`-th external call. -/
def loopPairs (ce : CEOracle) (account_id start_date end_date : Json) :
    List Json → Nat → List (Json × Option Json)
  | [], _ => []
  | e :: rest, idx =>
    (svcOf e, (breakdown_service_cost ce idx (svcOf e) account_id start_date end_date).2.2)
      :: loopPairs ce account_id start_date end_date rest (idx + 1)

/-- One request per entry, in input order. -/
def loopTrace (account_id start_date end_date : Json) (entries : List Json) : List CEReq :=
  entries.map (fun e => mkCEReq start_date end_date (svcOf e) account_id)

/-- The value paired with the LAST occurrence of `m` as a key, if any. -/
def lastLookup (pairs : List (Json × Option Json)) (m : Json) : Option (Option Json) :=
  match pairs with
  | [] => none
  | (k, v) :: rest =>
    match lastLookup rest m with
    | some w => some w
    | none => if k = m then some v else none

/-- The keys of a `cost_breakdown` dict, in insertion order. -/
def dictKeys (d : List (Json × Option Json)) : List Json := d.map Prod.fst

/-- The `cost_breakdown` dict the loop builds from well-formed entries. -/
def reportOf (ce : CEOracle) (account_id start_date end_date : Json)
    (entries : List Json) : List (Json × Option Json) :=
  List.foldl (fun d p => pyDictSet p.1 p.2 d) [] (loopPairs ce account_id start_date end_date entries 0)

/-! Concrete sample inputs, used to instantiate the theorems below. -/

/-- A well-formed sample event. -/
def sampleEvent : List (String × Json) :=
  [ ("services", .str "[duplicated services]")
  , ("start_date", .str "2024-01-01")
  , ("end_date", .str "2024-01-08")
  , ("account_id", .str "123456789012") ]

/-- A parser oracle that decodes `sampleEvent`'s services text to two entries
with the same service name. -/
def sampleLoads (s : String) : Except PyErr Json :=
  if s = "[duplicated services]" then
    .ok (.arr [.obj [("Service", .str "Amazon EC2")], .obj [("Service", .str "Amazon EC2")]])
  else
    .error (.jsonDecodeError "Expecting value: line 1 column 1 (char 0)")

/-- A Cost Explorer oracle that answers call `i` with a response whose
`ResultsByTime` is the one-element list `[i]`. -/
def sampleCE : CEOracle :=
  fun idx _ => .ok (.obj [("ResultsByTime", .arr [.num (Int.ofNat idx)])])

/-- A Cost Explorer oracle that always fails. -/
def failCE : CEOracle :=
  fun _ _ => .error "An error occurred (ThrottlingException) when calling the GetCostAndUsage operation"

/-- A parser oracle that decodes the empty array. -/
def emptyLoads (_ : String) : Except PyErr Json := .ok (.arr [])

/-- An event whose `services` text is rejected by the parser oracle, and which
lacks `start_date`. -/
def badJsonEvent : List (String × Json) :=
  [ ("services", .str "not valid json")
  , ("end_date", .str "2024-01-08")
  , ("account_id", .str "123456789012") ]

/-- An event lacking the `services` key. -/
def noServicesEvent : List (String × Json) :=
  [ ("start_date", .str "2024-01-01")
  , ("end_date", .str "2024-01-08")
  , ("account_id", .str "123456789012") ]

/-- A parser oracle with one entry lacking the `Service` key. -/
def missingServiceLoads (_ : String) : Except PyErr Json :=
  .ok (.arr [.obj [("Service", .str "Amazon EC2")], .obj [("service", .str "Amazon S3")]])

/-- A parser oracle that decodes one designated text to a list with an entry
lacking the `Service` key and rejects everything else. -/
def mixedLoads (s : String) : Except PyErr Json :=
  if s = "[one entry without Service]" then
    .ok (.arr [.obj [("Service", .str "Amazon EC2")], .obj [("service", .str "Amazon S3")]])
  else if s = "[duplicated services]" then
    .ok (.arr [.obj [("Service", .str "Amazon EC2")], .obj [("Service", .str "Amazon EC2")]])
  else
    .error (.jsonDecodeError "Expecting value: line 1 column 1 (char 0)")

/-- An event whose parsed services list has an entry lacking `Service`. -/
def missingServiceEvent : List (String × Json) :=
  [ ("services", .str "[one entry without Service]")
  , ("start_date", .str "2024-01-01")
  , ("end_date", .str "2024-01-08")
  , ("account_id", .str "123456789012") ]

/-- An event lacking `start_date`. -/
def noStartEvent : List (String × Json) :=
  [ ("services", .str "[duplicated services]")
  , ("end_date", .str "2024-01-08")
  , ("account_id", .str "123456789012") ]

/-- An event lacking `end_date`. -/
def noEndEvent : List (String × Json) :=
  [ ("services", .str "[duplicated services]")
  , ("start_date", .str "2024-01-01")
  , ("account_id", .str "123456789012") ]

/-- An event lacking `account_id`. -/
def noAccountEvent : List (String × Json) :=
  [ ("services", .str "[duplicated services]")
  , ("start_date", .str "2024-01-01")
  , ("end_date", .str "2024-01-08") ]

deriving instance DecidableEq for Except

/-! Helper lemmas about the dict operations and the loop. -/

theorem pyDictGet_set_self (d : List (Json × Option Json)) (k : Json) (v : Option Json) :
    pyDictGet (pyDictSet k v d) k = some v := by
  induction d with
  | nil => simp [pyDictSet, pyDictGet]
  | cons p rest ih =>
    obtain ⟨k', v'⟩ := p
    by_cases h : k' = k
    · simp [pyDictSet, h, pyDictGet]
    · simp [pyDictSet, h, pyDictGet, ih]

theorem pyDictGet_set_other (d : List (Json × Option Json)) (k m : Json) (v : Option Json)
    (h : m ≠ k) : pyDictGet (pyDictSet k v d) m = pyDictGet d m := by
  induction d with
  | nil => simp [pyDictSet, pyDictGet, Ne.symm h]
  | cons p rest ih =>
    obtain ⟨k', v'⟩ := p
    by_cases hk : k' = k
    · subst hk
      simp [pyDictSet, pyDictGet, Ne.symm h]
    · simp [pyDictSet, hk, pyDictGet, ih]

theorem dictKeys_set (d : List (Json × Option Json)) (k : Json) (v : Option Json) :
    dictKeys (pyDictSet k v d) =
      if k ∈ dictKeys d then dictKeys d else dictKeys d ++ [k] := by
  induction d with
  | nil => simp [pyDictSet, dictKeys]
  | cons p rest ih =>
    obtain ⟨k', v'⟩ := p
    by_cases h : k' = k
    · subst h
      simp [pyDictSet, dictKeys]
    · simp only [pyDictSet, if_neg h, dictKeys, List.map_cons, List.mem_cons, Ne.symm h,
        false_or]
      rw [show List.map Prod.fst (pyDictSet k v rest) = dictKeys (pyDictSet k v rest) from rfl,
        ih]
      by_cases hm : k ∈ List.map Prod.fst rest <;> simp [dictKeys, hm]

theorem mem_dictKeys_set (d : List (Json × Option Json)) (k m : Json) (v : Option Json) :
    m ∈ dictKeys (pyDictSet k v d) ↔ m ∈ dictKeys d ∨ m = k := by
  rw [dictKeys_set]
  by_cases h : k ∈ dictKeys d
  · simp only [if_pos h]
    constructor
    · exact fun hm => Or.inl hm
    · rintro (hm | rfl)
      · exact hm
      · exact h
  · simp [if_neg h]

theorem nodup_dictKeys_set (d : List (Json × Option Json)) (k : Json) (v : Option Json)
    (h : (dictKeys d).Nodup) : (dictKeys (pyDictSet k v d)).Nodup := by
  rw [dictKeys_set]
  by_cases hk : k ∈ dictKeys d
  · simpa [hk] using h
  · simp [hk, List.nodup_append, h]

theorem pyDictGet_foldl_set (pairs : List (Json × Option Json)) :
    ∀ (acc : List (Json × Option Json)) (m : Json),
      pyDictGet (List.foldl (fun d p => pyDictSet p.1 p.2 d) acc pairs) m =
        (lastLookup pairs m).or (pyDictGet acc m) := by
  induction pairs with
  | nil => intro acc m; simp [lastLookup]
  | cons p rest ih =>
    intro acc m
    obtain ⟨k, v⟩ := p
    simp only [List.foldl_cons]
    rw [ih]
    simp only [lastLookup]
    cases hl : lastLookup rest m with
    | some w => simp
    | none =>
      by_cases h : k = m
      · subst h
        simp [pyDictGet_set_self]
      · simp [h, pyDictGet_set_other _ _ _ _ (Ne.symm h)]

theorem mem_dictKeys_foldl_set (pairs : List (Json × Option Json)) :
    ∀ (acc : List (Json × Option Json)) (m : Json),
      m ∈ dictKeys (List.foldl (fun d p => pyDictSet p.1 p.2 d) acc pairs) ↔
        m ∈ dictKeys acc ∨ m ∈ pairs.map Prod.fst := by
  induction pairs with
  | nil => intro acc m; simp
  | cons p rest ih =>
    intro acc m
    obtain ⟨k, v⟩ := p
    simp only [List.foldl_cons, List.map_cons, List.mem_cons]
    rw [ih, mem_dictKeys_set]
    tauto

theorem nodup_dictKeys_foldl_set (pairs : List (Json × Option Json)) :
    ∀ (acc : List (Json × Option Json)), (dictKeys acc).Nodup →
      (dictKeys (List.foldl (fun d p => pyDictSet p.1 p.2 d) acc pairs)).Nodup := by
  induction pairs with
  | nil => intro acc h; simpa using h
  | cons p rest ih =>
    intro acc h
    exact ih _ (nodup_dictKeys_set _ _ _ h)

theorem pyGetKeyStr_not_mem (d : List (String × Json)) (k : String)
    (h : k ∉ d.map Prod.fst) : pyGetKeyStr d k = .error (.keyError k) := by
  induction d with
  | nil => rfl
  | cons p rest ih =>
    obtain ⟨k', v⟩ := p
    simp only [List.map_cons, List.mem_cons, not_or] at h
    simp only [pyGetKeyStr, if_neg (Ne.symm h.1)]
    exact ih h.2

theorem goodEntry_spec (e : Json) (h : goodEntry e = true) :
    jsonGetItem e "Service" = .ok (svcOf e) ∧ pyHashable (svcOf e) = true := by
  unfold goodEntry at h
  cases hg : jsonGetItem e "Service" with
  | error err => rw [hg] at h; cases h
  | ok v =>
    rw [hg] at h
    have hs : svcOf e = v := by simp [svcOf, entryService, hg]
    rw [hs]
    exact ⟨rfl, h⟩

theorem breakdown_trace (ce : CEOracle) (idx : Nat) (service a sd ed : Json) :
    (breakdown_service_cost ce idx service a sd ed).1 = [mkCEReq sd ed service a] := by
  cases h : ce idx (mkCEReq sd ed service a) with
  | error e => simp [breakdown_service_cost, h]
  | ok resp =>
    cases h2 : jsonGetItem resp "ResultsByTime" with
    | error e => simp [breakdown_service_cost, h, h2]
    | ok v => simp [breakdown_service_cost, h, h2]

theorem loopPairs_map_fst (ce : CEOracle) (a sd ed : Json) :
    ∀ (entries : List Json) (idx : Nat),
      (loopPairs ce a sd ed entries idx).map Prod.fst = entries.map svcOf
  | [], _ => rfl
  | e :: rest, idx => by
    simp [loopPairs, loopPairs_map_fst ce a sd ed rest (idx + 1)]

theorem services_loop_ok (ce : CEOracle) (a sd ed : Json) :
    ∀ (entries : List Json) (idx : Nat) (acc : List (Json × Option Json)),
      (∀ e ∈ entries, goodEntry e = true) →
      ∃ lg, services_loop ce a sd ed entries idx acc =
        (loopTrace a sd ed entries, lg,
         .ok (List.foldl (fun d p => pyDictSet p.1 p.2 d) acc
              (loopPairs ce a sd ed entries idx)))
  | [], _, _, _ => ⟨[], rfl⟩
  | e :: rest, idx, acc, h => by
    obtain ⟨hsvc, hhash⟩ := goodEntry_spec e (h e (by simp))
    obtain ⟨lg, hlg⟩ := services_loop_ok ce a sd ed rest (idx + 1)
      (pyDictSet (svcOf e) (breakdown_service_cost ce idx (svcOf e) a sd ed).2.2 acc)
      (fun x hx => h x (by simp [hx]))
    refine ⟨(breakdown_service_cost ce idx (svcOf e) a sd ed).2.1 ++ lg, ?_⟩
    simp only [services_loop, hsvc, hhash, if_true, hlg, loopTrace, List.map_cons, loopPairs,
      List.foldl_cons, breakdown_trace]
    rfl

theorem lambda_handler_ok_eq (ce : CEOracle) (jsonLoads : String → Except PyErr Json)
    (event : List (String × Json)) (s : String) (entries : List Json) (sd ed a : Json)
    (hsv : pyGetKeyStr event "services" = .ok (.str s))
    (hloads : jsonLoads s = .ok (.arr entries))
    (hsd : pyGetKeyStr event "start_date" = .ok sd)
    (hed : pyGetKeyStr event "end_date" = .ok ed)
    (ha : pyGetKeyStr event "account_id" = .ok a)
    (hgood : ∀ e ∈ entries, goodEntry e = true) :
    ∃ lg, lambda_handler ce jsonLoads event =
      (loopTrace a sd ed entries,
       lg ++ [{ level := .info, msg := pyStrDict (reportOf ce a sd ed entries) }],
       .ok { statusCode := 200, body := pyDumpsDict (reportOf ce a sd ed entries) }) := by
  obtain ⟨lg, hlg⟩ := services_loop_ok ce a sd ed entries 0 [] hgood
  refine ⟨lg, ?_⟩
  simp only [lambda_handler, hsv, hloads, hsd, hed, ha, pyIter, hlg, reportOf]

theorem services_loop_bad_entry (ce : CEOracle) (a sd ed : Json) :
    ∀ (entries : List Json) (idx : Nat) (acc : List (Json × Option Json)),
      (∃ e ∈ entries, ∀ v, jsonGetItem e "Service" ≠ .ok v) →
      ∃ err, (services_loop ce a sd ed entries idx acc).2.2 = .error err
  | [], _, _, h => absurd h (by simp)
  | e :: rest, idx, acc, h => by
    obtain ⟨x, hx, hbad⟩ := h
    cases hg : jsonGetItem e "Service" with
    | error err => exact ⟨err, by simp [services_loop, hg]⟩
    | ok v =>
      cases List.mem_cons.mp hx with
      | inl hxe => exact absurd hg (hxe ▸ hbad v)
      | inr hxr =>
        by_cases hh : pyHashable v
        · obtain ⟨err, herr⟩ := services_loop_bad_entry ce a sd ed rest (idx + 1)
            (pyDictSet v (breakdown_service_cost ce idx v a sd ed).2.2 acc) ⟨x, hxr, hbad⟩
          exact ⟨err, by simp [services_loop, hg, hh, herr]⟩
        · exact ⟨.typeError "unhashable type",
            by simp [services_loop, hg, hh]⟩

/-! The claims. -/

/-- C2: if the external billing call for a service fails in any way, the
exception is caught inside `breakdown_service_cost`: the function still
returns (it is total, so nothing propagates to its caller), its Python result
is `None`, and it emits exactly one error-level log record whose text contains
the service name and the error detail. -/
theorem breakdown_service_cost_catches (ce : CEOracle) (idx : Nat)
    (service a sd ed : Json) (e : String)
    (hfail : ce idx (mkCEReq sd ed service a) = .error e) :
    breakdown_service_cost ce idx service a sd ed =
      ([mkCEReq sd ed service a], [breakdownErrLog service e], none) ∧
    (breakdownErrLog service e).level = .error ∧
    (∃ pre mid, (breakdownErrLog service e).msg = pre ++ pyStr service ++ mid ++ e) := by
  refine ⟨by simp [breakdown_service_cost, hfail], rfl, "Error fetching cost breakdown for ", ": ", ?_⟩
  simp [breakdownErrLog]

/-- Witness for C2 at a concrete failing oracle. -/
theorem breakdown_service_cost_catches_witness :
    failCE 0 (mkCEReq (.str "2024-01-01") (.str "2024-01-08") (.str "Amazon EC2")
      (.str "123456789012")) =
        .error "An error occurred (ThrottlingException) when calling the GetCostAndUsage operation" ∧
    (breakdown_service_cost failCE 0 (.str "Amazon EC2") (.str "123456789012")
        (.str "2024-01-01") (.str "2024-01-08") =
      ([mkCEReq (.str "2024-01-01") (.str "2024-01-08") (.str "Amazon EC2") (.str "123456789012")],
       [breakdownErrLog (.str "Amazon EC2")
         "An error occurred (ThrottlingException) when calling the GetCostAndUsage operation"],
       none) ∧
    (breakdownErrLog (.str "Amazon EC2")
      "An error occurred (ThrottlingException) when calling the GetCostAndUsage operation").level = .error ∧
    (∃ pre mid, (breakdownErrLog (.str "Amazon EC2")
      "An error occurred (ThrottlingException) when calling the GetCostAndUsage operation").msg =
        pre ++ pyStr (.str "Amazon EC2") ++ mid ++
          "An error occurred (ThrottlingException) when calling the GetCostAndUsage operation")) :=
  ⟨rfl, breakdown_service_cost_catches failCE 0 (.str "Amazon EC2") (.str "123456789012")
    (.str "2024-01-01") (.str "2024-01-08")
    "An error occurred (ThrottlingException) when calling the GetCostAndUsage operation" rfl⟩

/-- C4: when the external call succeeds, `breakdown_service_cost` returns the
response's `ResultsByTime` value verbatim, and storing it in the report dict
under the service name makes the lookup of that name yield exactly it. -/
theorem breakdown_service_cost_verbatim (ce : CEOracle) (idx : Nat)
    (service a sd ed resp v : Json)
    (hok : ce idx (mkCEReq sd ed service a) = .ok resp)
    (hrbt : jsonGetItem resp "ResultsByTime" = .ok v) :
    breakdown_service_cost ce idx service a sd ed =
      ([mkCEReq sd ed service a], [], some v) ∧
    (∀ acc, pyDictGet
      (pyDictSet service (breakdown_service_cost ce idx service a sd ed).2.2 acc) service
        = some (some v)) := by
  have h : breakdown_service_cost ce idx service a sd ed =
      ([mkCEReq sd ed service a], [], some v) := by
    simp [breakdown_service_cost, hok, hrbt]
  refine ⟨h, fun acc => ?_⟩
  rw [h]
  exact pyDictGet_set_self acc service (some v)

/-- Witness for C4 at a concrete succeeding oracle. -/
theorem breakdown_service_cost_verbatim_witness :
    sampleCE 3 (mkCEReq (.str "2024-01-01") (.str "2024-01-08") (.str "Amazon EC2")
      (.str "123456789012")) = .ok (.obj [("ResultsByTime", .arr [.num 3])]) ∧
    jsonGetItem (.obj [("ResultsByTime", .arr [.num 3])]) "ResultsByTime" = .ok (.arr [.num 3]) ∧
    (breakdown_service_cost sampleCE 3 (.str "Amazon EC2") (.str "123456789012")
        (.str "2024-01-01") (.str "2024-01-08") =
      ([mkCEReq (.str "2024-01-01") (.str "2024-01-08") (.str "Amazon EC2") (.str "123456789012")],
       [], some (.arr [.num 3])) ∧
    (∀ acc, pyDictGet
      (pyDictSet (.str "Amazon EC2")
        (breakdown_service_cost sampleCE 3 (.str "Amazon EC2") (.str "123456789012")
          (.str "2024-01-01") (.str "2024-01-08")).2.2 acc) (.str "Amazon EC2")
        = some (some (.arr [.num 3])))) :=
  ⟨rfl, rfl, breakdown_service_cost_verbatim sampleCE 3 (.str "Amazon EC2")
    (.str "123456789012") (.str "2024-01-01") (.str "2024-01-08")
    (.obj [("ResultsByTime", .arr [.num 3])]) (.arr [.num 3]) rfl rfl⟩

/-- C6: every call of `breakdown_service_cost` issues exactly one external
query, whose keyword arguments are literally the time period
`[start_date, end_date)`, `DAILY` granularity, the `UnblendedCost` metric,
group-by on the `USAGE_TYPE` dimension, and an `And` filter of the `SERVICE`
and `LINKED_ACCOUNT` dimensions; no retry happens on any outcome. -/
theorem breakdown_service_cost_single_query (ce : CEOracle) (idx : Nat)
    (service a sd ed : Json) :
    (breakdown_service_cost ce idx service a sd ed).1 = [mkCEReq sd ed service a] ∧
    mkCEReq sd ed service a =
      { timePeriod := .obj [("Start", sd), ("End", ed)]
        granularity := "DAILY"
        metrics := ["UnblendedCost"]
        groupBy := .arr [.obj [("Type", .str "DIMENSION"), ("Key", .str "USAGE_TYPE")]]
        filter := .obj [("And", .arr
          [ .obj [("Dimensions", .obj [("Key", .str "SERVICE"), ("Values", .arr [service])])]
          , .obj [("Dimensions", .obj [("Key", .str "LINKED_ACCOUNT"),
              ("Values", .arr [a])])]])] } :=
  ⟨breakdown_trace ce idx service a sd ed, rfl⟩

/-- C7: at the caller-visible level the only difference between a failed query
and a successful query with zero line items is the stored value: the failure
is `None`, the well-formed empty result is the empty list, and these two are
distinct; the `Option` result carries no further error reason or code. -/
theorem failed_vs_empty_results (ceF ceS : CEOracle) (idx jdx : Nat)
    (service a sd ed : Json) (e : String) (resp : Json)
    (hfail : ceF idx (mkCEReq sd ed service a) = .error e)
    (hok : ceS jdx (mkCEReq sd ed service a) = .ok resp)
    (hrbt : jsonGetItem resp "ResultsByTime" = .ok (.arr [])) :
    (breakdown_service_cost ceF idx service a sd ed).2.2 = none ∧
    (breakdown_service_cost ceS jdx service a sd ed).2.2 = some (.arr []) ∧
    some (Json.arr []) ≠ (none : Option Json) := by
  refine ⟨?_, ?_, by simp⟩
  · simp [breakdown_service_cost, hfail]
  · simp [breakdown_service_cost, hok, hrbt]

/-- Witness for C7: a failing oracle next to an empty-result oracle. -/
theorem failed_vs_empty_results_witness :
    failCE 0 (mkCEReq (.str "2024-01-01") (.str "2024-01-08") (.str "Amazon EC2")
      (.str "123456789012")) =
        .error "An error occurred (ThrottlingException) when calling the GetCostAndUsage operation" ∧
    (fun (_ : Nat) (_ : CEReq) =>
      (.ok (.obj [("ResultsByTime", .arr [])]) : Except String Json)) 0
        (mkCEReq (.str "2024-01-01") (.str "2024-01-08") (.str "Amazon EC2")
          (.str "123456789012")) = .ok (.obj [("ResultsByTime", .arr [])]) ∧
    jsonGetItem (.obj [("ResultsByTime", .arr [])]) "ResultsByTime" = .ok (.arr []) ∧
    ((breakdown_service_cost failCE 0 (.str "Amazon EC2") (.str "123456789012")
        (.str "2024-01-01") (.str "2024-01-08")).2.2 = none ∧
     (breakdown_service_cost
        (fun (_ : Nat) (_ : CEReq) =>
          (.ok (.obj [("ResultsByTime", .arr [])]) : Except String Json)) 0
        (.str "Amazon EC2") (.str "123456789012")
        (.str "2024-01-01") (.str "2024-01-08")).2.2 = some (.arr []) ∧
     some (Json.arr []) ≠ (none : Option Json)) :=
  ⟨rfl, rfl, rfl, failed_vs_empty_results failCE
    (fun (_ : Nat) (_ : CEReq) => (.ok (.obj [("ResultsByTime", .arr [])]) : Except String Json))
    0 0 (.str "Amazon EC2") (.str "123456789012") (.str "2024-01-01") (.str "2024-01-08")
    "An error occurred (ThrottlingException) when calling the GetCostAndUsage operation"
    (.obj [("ResultsByTime", .arr [])]) rfl rfl rfl⟩

/-- C1: for an event whose `services` field parses as an array of entries each
carrying a usable `Service` value, `lambda_handler` returns the serialized
report whose key set is exactly the set of `Service` values, each key once,
and the value under each name is the one paired with the LAST occurrence of
that name in `loopPairs` — the pair built from the latest call for that name
(`loopPairs` records the `breakdown_service_cost` result of call `i` at
position `i`).  Usability of a `Service` value means extraction succeeds and
the value can be a dict key, which the loop needs in order to return at all. -/
theorem lambda_handler_report_keys (ce : CEOracle) (jsonLoads : String → Except PyErr Json)
    (event : List (String × Json)) (s : String) (entries : List Json) (sd ed a : Json)
    (hsv : pyGetKeyStr event "services" = .ok (.str s))
    (hloads : jsonLoads s = .ok (.arr entries))
    (hsd : pyGetKeyStr event "start_date" = .ok sd)
    (hed : pyGetKeyStr event "end_date" = .ok ed)
    (ha : pyGetKeyStr event "account_id" = .ok a)
    (hgood : ∀ e ∈ entries, goodEntry e = true) :
    (∃ tr lg, lambda_handler ce jsonLoads event =
      (tr, lg, .ok { statusCode := 200, body := pyDumpsDict (reportOf ce a sd ed entries) })) ∧
    (∀ m, m ∈ dictKeys (reportOf ce a sd ed entries) ↔ m ∈ entries.map svcOf) ∧
    (dictKeys (reportOf ce a sd ed entries)).Nodup ∧
    (∀ m, pyDictGet (reportOf ce a sd ed entries) m =
      lastLookup (loopPairs ce a sd ed entries 0) m) := by
  obtain ⟨lg, h⟩ := lambda_handler_ok_eq ce jsonLoads event s entries sd ed a
    hsv hloads hsd hed ha hgood
  refine ⟨⟨_, _, h⟩, ?_, ?_, ?_⟩
  · intro m
    rw [reportOf, mem_dictKeys_foldl_set, loopPairs_map_fst]
    simp [dictKeys]
  · exact nodup_dictKeys_foldl_set _ _ (by simp [dictKeys])
  · intro m
    rw [reportOf, pyDictGet_foldl_set]
    simp [pyDictGet]

/-- Witness for C1: the duplicate-service sample; call 0 and call 1 answer
differently and the report keeps call 1's answer under the single key. -/
theorem lambda_handler_report_keys_witness :
    pyGetKeyStr sampleEvent "services" = .ok (.str "[duplicated services]") ∧
    sampleLoads "[duplicated services]" =
      .ok (.arr [.obj [("Service", .str "Amazon EC2")], .obj [("Service", .str "Amazon EC2")]]) ∧
    pyGetKeyStr sampleEvent "start_date" = .ok (.str "2024-01-01") ∧
    pyGetKeyStr sampleEvent "end_date" = .ok (.str "2024-01-08") ∧
    pyGetKeyStr sampleEvent "account_id" = .ok (.str "123456789012") ∧
    (∀ e ∈ [Json.obj [("Service", .str "Amazon EC2")], Json.obj [("Service", .str "Amazon EC2")]],
      goodEntry e = true) ∧
    ((∃ tr lg, lambda_handler sampleCE sampleLoads sampleEvent =
      (tr, lg, .ok { statusCode := 200, body := pyDumpsDict (reportOf sampleCE
        (.str "123456789012") (.str "2024-01-01") (.str "2024-01-08")
        [.obj [("Service", .str "Amazon EC2")], .obj [("Service", .str "Amazon EC2")]]) })) ∧
    (∀ m, m ∈ dictKeys (reportOf sampleCE (.str "123456789012") (.str "2024-01-01")
        (.str "2024-01-08")
        [.obj [("Service", .str "Amazon EC2")], .obj [("Service", .str "Amazon EC2")]]) ↔
      m ∈ [Json.obj [("Service", .str "Amazon EC2")],
        Json.obj [("Service", .str "Amazon EC2")]].map svcOf) ∧
    (dictKeys (reportOf sampleCE (.str "123456789012") (.str "2024-01-01") (.str "2024-01-08")
      [.obj [("Service", .str "Amazon EC2")], .obj [("Service", .str "Amazon EC2")]])).Nodup ∧
    (∀ m, pyDictGet (reportOf sampleCE (.str "123456789012") (.str "2024-01-01")
        (.str "2024-01-08")
        [.obj [("Service", .str "Amazon EC2")], .obj [("Service", .str "Amazon EC2")]]) m =
      lastLookup (loopPairs sampleCE (.str "123456789012") (.str "2024-01-01")
        (.str "2024-01-08")
        [.obj [("Service", .str "Amazon EC2")], .obj [("Service", .str "Amazon EC2")]] 0) m)) :=
  ⟨rfl, by decide, rfl, rfl, rfl, by decide,
    lambda_handler_report_keys sampleCE sampleLoads sampleEvent "[duplicated services]"
      [.obj [("Service", .str "Amazon EC2")], .obj [("Service", .str "Amazon EC2")]]
      (.str "2024-01-01") (.str "2024-01-08") (.str "123456789012")
      rfl (by decide) rfl rfl rfl (by decide)⟩

/-- C8: on a well-formed event the trace of external calls of
`lambda_handler` is exactly one request per parsed entry, in the order the
entries appear; the embedding is sequential, each call's result being recorded
(at its index, see `loopPairs`) before the next entry is processed. -/
theorem lambda_handler_sequential_trace (ce : CEOracle)
    (jsonLoads : String → Except PyErr Json)
    (event : List (String × Json)) (s : String) (entries : List Json) (sd ed a : Json)
    (hsv : pyGetKeyStr event "services" = .ok (.str s))
    (hloads : jsonLoads s = .ok (.arr entries))
    (hsd : pyGetKeyStr event "start_date" = .ok sd)
    (hed : pyGetKeyStr event "end_date" = .ok ed)
    (ha : pyGetKeyStr event "account_id" = .ok a)
    (hgood : ∀ e ∈ entries, goodEntry e = true) :
    (lambda_handler ce jsonLoads event).1 =
      entries.map (fun e => mkCEReq sd ed (svcOf e) a) := by
  obtain ⟨lg, h⟩ := lambda_handler_ok_eq ce jsonLoads event s entries sd ed a
    hsv hloads hsd hed ha hgood
  rw [h]
  rfl

/-- Witness for C8 on the duplicate-service sample. -/
theorem lambda_handler_sequential_trace_witness :
    pyGetKeyStr sampleEvent "services" = .ok (.str "[duplicated services]") ∧
    sampleLoads "[duplicated services]" =
      .ok (.arr [.obj [("Service", .str "Amazon EC2")], .obj [("Service", .str "Amazon EC2")]]) ∧
    pyGetKeyStr sampleEvent "start_date" = .ok (.str "2024-01-01") ∧
    pyGetKeyStr sampleEvent "end_date" = .ok (.str "2024-01-08") ∧
    pyGetKeyStr sampleEvent "account_id" = .ok (.str "123456789012") ∧
    (∀ e ∈ [Json.obj [("Service", .str "Amazon EC2")], Json.obj [("Service", .str "Amazon EC2")]],
      goodEntry e = true) ∧
    (lambda_handler sampleCE sampleLoads sampleEvent).1 =
      [Json.obj [("Service", .str "Amazon EC2")],
       Json.obj [("Service", .str "Amazon EC2")]].map
        (fun e => mkCEReq (.str "2024-01-01") (.str "2024-01-08") (svcOf e)
          (.str "123456789012")) :=
  ⟨rfl, by decide, rfl, rfl, rfl, by decide,
    lambda_handler_sequential_trace sampleCE sampleLoads sampleEvent "[duplicated services]"
      [.obj [("Service", .str "Amazon EC2")], .obj [("Service", .str "Amazon EC2")]]
      (.str "2024-01-01") (.str "2024-01-08") (.str "123456789012")
      rfl (by decide) rfl rfl rfl (by decide)⟩

/-- C9: when `services` decodes to the empty array, `lambda_handler` issues no
external call, logs the empty dict, and returns status 200 with body the JSON
encoding of the empty mapping. -/
theorem lambda_handler_empty_services (ce : CEOracle)
    (jsonLoads : String → Except PyErr Json)
    (event : List (String × Json)) (s : String) (sd ed a : Json)
    (hsv : pyGetKeyStr event "services" = .ok (.str s))
    (hloads : jsonLoads s = .ok (.arr []))
    (hsd : pyGetKeyStr event "start_date" = .ok sd)
    (hed : pyGetKeyStr event "end_date" = .ok ed)
    (ha : pyGetKeyStr event "account_id" = .ok a) :
    lambda_handler ce jsonLoads event =
      ([], [{ level := .info, msg := "\x7b\x7d" }],
       .ok { statusCode := 200, body := "\x7b\x7d" }) := by
  simp only [lambda_handler, hsv, hloads, hsd, hed, ha, pyIter, services_loop]
  rfl

/-- Witness for C9 at a concrete event with an empty services array. -/
theorem lambda_handler_empty_services_witness :
    pyGetKeyStr sampleEvent "services" = .ok (.str "[duplicated services]") ∧
    emptyLoads "[duplicated services]" = .ok (.arr []) ∧
    pyGetKeyStr sampleEvent "start_date" = .ok (.str "2024-01-01") ∧
    pyGetKeyStr sampleEvent "end_date" = .ok (.str "2024-01-08") ∧
    pyGetKeyStr sampleEvent "account_id" = .ok (.str "123456789012") ∧
    lambda_handler sampleCE emptyLoads sampleEvent =
      ([], [{ level := .info, msg := "\x7b\x7d" }],
       .ok { statusCode := 200, body := "\x7b\x7d" }) :=
  ⟨rfl, rfl, rfl, rfl, rfl,
    lambda_handler_empty_services sampleCE emptyLoads sampleEvent "[duplicated services]"
      (.str "2024-01-01") (.str "2024-01-08") (.str "123456789012") rfl rfl rfl rfl rfl⟩

/-- C3: `lambda_handler` catches nothing at its level.  On an event whose
`services` text the parser rejects, the invocation fails with that very parse
error before any statusCode exists; on an event whose parsed list contains an
entry from which no `Service` value can be extracted, the invocation likewise
ends in an uncaught error, never a partial or empty report. -/
theorem lambda_handler_bad_services_fails (ce : CEOracle)
    (jsonLoads : String → Except PyErr Json)
    (ev1 ev2 : List (String × Json)) (s1 s2 : String) (perr : PyErr) (entries : List Json)
    (h1sv : pyGetKeyStr ev1 "services" = .ok (.str s1))
    (h1 : jsonLoads s1 = .error perr)
    (h2sv : pyGetKeyStr ev2 "services" = .ok (.str s2))
    (h2ld : jsonLoads s2 = .ok (.arr entries))
    (h2bad : ∃ e ∈ entries, ∀ v, jsonGetItem e "Service" ≠ .ok v) :
    lambda_handler ce jsonLoads ev1 = ([], [], .error perr) ∧
    ∃ err, (lambda_handler ce jsonLoads ev2).2.2 = .error err := by
  constructor
  · simp [lambda_handler, h1sv, h1]
  · cases hsd : pyGetKeyStr ev2 "start_date" with
    | error e => exact ⟨e, by simp [lambda_handler, h2sv, h2ld, hsd]⟩
    | ok sd =>
      cases hed : pyGetKeyStr ev2 "end_date" with
      | error e => exact ⟨e, by simp [lambda_handler, h2sv, h2ld, hsd, hed]⟩
      | ok ed =>
        cases ha : pyGetKeyStr ev2 "account_id" with
        | error e => exact ⟨e, by simp [lambda_handler, h2sv, h2ld, hsd, hed, ha]⟩
        | ok a =>
          obtain ⟨err, herr⟩ := services_loop_bad_entry ce a sd ed entries 0 [] h2bad
          refine ⟨err, ?_⟩
          rcases hsl : services_loop ce a sd ed entries 0 [] with ⟨tr, lgs, res⟩
          rw [hsl] at herr
          simp only at herr
          simp [lambda_handler, h2sv, h2ld, hsd, hed, ha, pyIter, hsl, herr]

/-- Witness for C3: invalid JSON on one event, a missing `Service` key on the
other; both invocations fail without a statusCode. -/
theorem lambda_handler_bad_services_fails_witness :
    pyGetKeyStr badJsonEvent "services" = .ok (.str "not valid json") ∧
    mixedLoads "not valid json" =
      .error (.jsonDecodeError "Expecting value: line 1 column 1 (char 0)") ∧
    pyGetKeyStr missingServiceEvent "services" = .ok (.str "[one entry without Service]") ∧
    mixedLoads "[one entry without Service]" =
      .ok (.arr [.obj [("Service", .str "Amazon EC2")], .obj [("service", .str "Amazon S3")]]) ∧
    (∃ e ∈ [Json.obj [("Service", .str "Amazon EC2")], Json.obj [("service", .str "Amazon S3")]],
      ∀ v, jsonGetItem e "Service" ≠ .ok v) ∧
    (lambda_handler sampleCE mixedLoads badJsonEvent =
      ([], [], .error (.jsonDecodeError "Expecting value: line 1 column 1 (char 0)")) ∧
    ∃ err, (lambda_handler sampleCE mixedLoads missingServiceEvent).2.2 = .error err) :=
  ⟨rfl, rfl, rfl, by decide,
    ⟨.obj [("service", .str "Amazon S3")], by decide, fun v h => nomatch h⟩,
    lambda_handler_bad_services_fails sampleCE mixedLoads badJsonEvent missingServiceEvent
      "not valid json" "[one entry without Service]"
      (.jsonDecodeError "Expecting value: line 1 column 1 (char 0)")
      [.obj [("Service", .str "Amazon EC2")], .obj [("service", .str "Amazon S3")]]
      rfl rfl rfl (by decide)
      ⟨.obj [("service", .str "Amazon S3")], by decide, fun v h => nomatch h⟩⟩

/-- C10: a missing event key raises `KeyError` and no response is produced;
`services` is read and parsed first, so on an event whose `services` text is
unparseable the invocation fails with the parse error even though
`start_date` is also missing, while a missing `start_date` (resp. `end_date`,
`account_id`) surfaces as its own `KeyError` only once `services` has parsed
(resp. and the earlier keys are present). -/
theorem lambda_handler_missing_event_keys (ce : CEOracle)
    (jsonLoads : String → Except PyErr Json)
    (ev1 ev2 ev3 ev4 ev5 : List (String × Json))
    (s2 s3 s4 s5 : String) (perr : PyErr) (services3 services4 services5 : Json)
    (sd4 sd5 ed5 : Json)
    (h1 : "services" ∉ ev1.map Prod.fst)
    (h2sv : pyGetKeyStr ev2 "services" = .ok (.str s2))
    (h2sd : "start_date" ∉ ev2.map Prod.fst)
    (h2 : jsonLoads s2 = .error perr)
    (h3sv : pyGetKeyStr ev3 "services" = .ok (.str s3))
    (h3ld : jsonLoads s3 = .ok services3)
    (h3 : "start_date" ∉ ev3.map Prod.fst)
    (h4sv : pyGetKeyStr ev4 "services" = .ok (.str s4))
    (h4ld : jsonLoads s4 = .ok services4)
    (h4sd : pyGetKeyStr ev4 "start_date" = .ok sd4)
    (h4 : "end_date" ∉ ev4.map Prod.fst)
    (h5sv : pyGetKeyStr ev5 "services" = .ok (.str s5))
    (h5ld : jsonLoads s5 = .ok services5)
    (h5sd : pyGetKeyStr ev5 "start_date" = .ok sd5)
    (h5ed : pyGetKeyStr ev5 "end_date" = .ok ed5)
    (h5 : "account_id" ∉ ev5.map Prod.fst) :
    lambda_handler ce jsonLoads ev1 = ([], [], .error (.keyError "services")) ∧
    lambda_handler ce jsonLoads ev2 = ([], [], .error perr) ∧
    lambda_handler ce jsonLoads ev3 = ([], [], .error (.keyError "start_date")) ∧
    lambda_handler ce jsonLoads ev4 = ([], [], .error (.keyError "end_date")) ∧
    lambda_handler ce jsonLoads ev5 = ([], [], .error (.keyError "account_id")) := by
  refine ⟨?_, ?_, ?_, ?_, ?_⟩
  · simp [lambda_handler, pyGetKeyStr_not_mem _ _ h1]
  · simp [lambda_handler, h2sv, h2]
  · simp [lambda_handler, h3sv, h3ld, pyGetKeyStr_not_mem _ _ h3]
  · simp [lambda_handler, h4sv, h4ld, h4sd, pyGetKeyStr_not_mem _ _ h4]
  · simp [lambda_handler, h5sv, h5ld, h5sd, h5ed, pyGetKeyStr_not_mem _ _ h5]

/-- Witness for C10 on five concrete events, one per missing-key scenario. -/
theorem lambda_handler_missing_event_keys_witness :
    "services" ∉ noServicesEvent.map Prod.fst ∧
    pyGetKeyStr badJsonEvent "services" = .ok (.str "not valid json") ∧
    "start_date" ∉ badJsonEvent.map Prod.fst ∧
    mixedLoads "not valid json" =
      .error (.jsonDecodeError "Expecting value: line 1 column 1 (char 0)") ∧
    pyGetKeyStr noStartEvent "services" = .ok (.str "[duplicated services]") ∧
    mixedLoads "[duplicated services]" =
      .ok (.arr [.obj [("Service", .str "Amazon EC2")], .obj [("Service", .str "Amazon EC2")]]) ∧
    "start_date" ∉ noStartEvent.map Prod.fst ∧
    pyGetKeyStr noEndEvent "services" = .ok (.str "[duplicated services]") ∧
    pyGetKeyStr noEndEvent "start_date" = .ok (.str "2024-01-01") ∧
    "end_date" ∉ noEndEvent.map Prod.fst ∧
    pyGetKeyStr noAccountEvent "services" = .ok (.str "[duplicated services]") ∧
    pyGetKeyStr noAccountEvent "start_date" = .ok (.str "2024-01-01") ∧
    pyGetKeyStr noAccountEvent "end_date" = .ok (.str "2024-01-08") ∧
    "account_id" ∉ noAccountEvent.map Prod.fst ∧
    (lambda_handler sampleCE mixedLoads noServicesEvent =
      ([], [], .error (.keyError "services")) ∧
    lambda_handler sampleCE mixedLoads badJsonEvent =
      ([], [], .error (.jsonDecodeError "Expecting value: line 1 column 1 (char 0)")) ∧
    lambda_handler sampleCE mixedLoads noStartEvent =
      ([], [], .error (.keyError "start_date")) ∧
    lambda_handler sampleCE mixedLoads noEndEvent =
      ([], [], .error (.keyError "end_date")) ∧
    lambda_handler sampleCE mixedLoads noAccountEvent =
      ([], [], .error (.keyError "account_id"))) :=
  ⟨by decide, rfl, by decide, rfl, rfl, by decide, by decide, rfl, rfl, by decide,
   rfl, rfl, rfl, by decide,
   lambda_handler_missing_event_keys sampleCE mixedLoads
     noServicesEvent badJsonEvent noStartEvent noEndEvent noAccountEvent
     "not valid json" "[duplicated services]" "[duplicated services]" "[duplicated services]"
     (.jsonDecodeError "Expecting value: line 1 column 1 (char 0)")
     (.arr [.obj [("Service", .str "Amazon EC2")], .obj [("Service", .str "Amazon EC2")]])
     (.arr [.obj [("Service", .str "Amazon EC2")], .obj [("Service", .str "Amazon EC2")]])
     (.arr [.obj [("Service", .str "Amazon EC2")], .obj [("Service", .str "Amazon EC2")]])
     (.str "2024-01-01") (.str "2024-01-01") (.str "2024-01-08")
     (by decide) rfl (by decide) rfl rfl (by decide) (by decide)
     rfl (by decide) rfl (by decide) rfl (by decide) rfl rfl (by decide)⟩

/-- C5: whenever `lambda_handler` returns normally its value is exactly
status 200 with body the JSON dump of the `cost_breakdown` dict built by the
loop; no other statusCode can be produced, the only alternative outcome being
an uncaught exception. -/
theorem lambda_handler_always_200 (ce : CEOracle)
    (jsonLoads : String → Except PyErr Json)
    (event : List (String × Json)) (tr : List CEReq) (lg : List LogEntry) (r : LambdaResponse)
    (h : lambda_handler ce jsonLoads event = (tr, lg, .ok r)) :
    r.statusCode = 200 ∧
    ∃ s services entries sd ed a lg0 rep,
      pyGetKeyStr event "services" = .ok (.str s) ∧
      jsonLoads s = .ok services ∧
      pyGetKeyStr event "start_date" = .ok sd ∧
      pyGetKeyStr event "end_date" = .ok ed ∧
      pyGetKeyStr event "account_id" = .ok a ∧
      pyIter services = .ok entries ∧
      services_loop ce a sd ed entries 0 [] = (tr, lg0, .ok rep) ∧
      lg = lg0 ++ [{ level := .info, msg := pyStrDict rep }] ∧
      r = { statusCode := 200, body := pyDumpsDict rep } := by
  cases hsv : pyGetKeyStr event "services" with
  | error e => simp [lambda_handler, hsv] at h
  | ok sval =>
    cases sval with
    | null => simp [lambda_handler, hsv] at h
    | bool b => simp [lambda_handler, hsv] at h
    | num n => simp [lambda_handler, hsv] at h
    | arr xs => simp [lambda_handler, hsv] at h
    | obj kvs => simp [lambda_handler, hsv] at h
    | str s =>
      cases hld : jsonLoads s with
      | error e => simp [lambda_handler, hsv, hld] at h
      | ok services =>
        cases hsd : pyGetKeyStr event "start_date" with
        | error e => simp [lambda_handler, hsv, hld, hsd] at h
        | ok sd =>
          cases hed : pyGetKeyStr event "end_date" with
          | error e => simp [lambda_handler, hsv, hld, hsd, hed] at h
          | ok ed =>
            cases ha : pyGetKeyStr event "account_id" with
            | error e => simp [lambda_handler, hsv, hld, hsd, hed, ha] at h
            | ok a =>
              cases hit : pyIter services with
              | error e => simp [lambda_handler, hsv, hld, hsd, hed, ha, hit] at h
              | ok entries =>
                rcases hsl : services_loop ce a sd ed entries 0 [] with ⟨tr0, lg0, res⟩
                cases res with
                | error e =>
                  simp [lambda_handler, hsv, hld, hsd, hed, ha, hit, hsl] at h
                | ok rep =>
                  simp only [lambda_handler, hsv, hld, hsd, hed, ha, hit, hsl,
                    Prod.mk.injEq, Except.ok.injEq] at h
                  obtain ⟨htr, hlg, hr⟩ := h
                  subst htr
                  refine ⟨by rw [← hr], s, services, entries, sd, ed, a, lg0, rep,
                    rfl, hld, rfl, rfl, rfl, hit, hsl, hlg.symm, hr.symm⟩

/-- Witness for C5: the sample invocation returns normally and the theorem
applies to its concrete result. -/
theorem lambda_handler_always_200_witness :
    lambda_handler sampleCE sampleLoads sampleEvent =
      ([ mkCEReq (.str "2024-01-01") (.str "2024-01-08") (.str "Amazon EC2")
          (.str "123456789012")
       , mkCEReq (.str "2024-01-01") (.str "2024-01-08") (.str "Amazon EC2")
          (.str "123456789012") ],
       [{ level := .info, msg := "\x7b\x27Amazon EC2\x27: [1]\x7d" }],
       .ok { statusCode := 200, body := "\x7b\"Amazon EC2\": [1]\x7d" }) ∧
    ((LambdaResponse.mk 200 "\x7b\"Amazon EC2\": [1]\x7d").statusCode = 200 ∧
     ∃ s services entries sd ed a lg0 rep,
      pyGetKeyStr sampleEvent "services" = .ok (.str s) ∧
      sampleLoads s = .ok services ∧
      pyGetKeyStr sampleEvent "start_date" = .ok sd ∧
      pyGetKeyStr sampleEvent "end_date" = .ok ed ∧
      pyGetKeyStr sampleEvent "account_id" = .ok a ∧
      pyIter services = .ok entries ∧
      services_loop sampleCE a sd ed entries 0 [] =
        ([ mkCEReq (.str "2024-01-01") (.str "2024-01-08") (.str "Amazon EC2")
            (.str "123456789012")
         , mkCEReq (.str "2024-01-01") (.str "2024-01-08") (.str "Amazon EC2")
            (.str "123456789012") ], lg0, .ok rep) ∧
      [{ level := LogLevel.info, msg := "\x7b\x27Amazon EC2\x27: [1]\x7d" }] =
        lg0 ++ [{ level := .info, msg := pyStrDict rep }] ∧
      LambdaResponse.mk 200 "\x7b\"Amazon EC2\": [1]\x7d" =
        { statusCode := 200, body := pyDumpsDict rep }) :=
  ⟨by decide,
   lambda_handler_always_200 sampleCE sampleLoads sampleEvent _ _ _ (by decide)⟩
